import Mathlib

/-!
Verification development for the Noesis query-orchestration core.

The repository ships the architecture document, the README and the admin
frontend (`src/frontend/js/app.js`).  The backend core (SQL Guardrail
Validator, Credential Vault, Query Router, configuration entry points) is
described by the specification but its Python sources are not part of the
provided tree, so those components are modelled from the specification's
words; the frontend behaviours are embedded directly from `app.js`.

SQL text is embedded as `String` and immediately processed as `List Char`;
tokens are `List Char`.  All definitions are executable so concrete
scenarios evaluate by `decide`.
-/

namespace Noesis

/-! ## Character and token utilities -/

def isWs (c : Char) : Bool :=
  c == ' ' || c == '\t' || c == '\n' || c == '\r'

def isSep (c : Char) : Bool :=
  isWs c || c == ','

/-- Split a character list at every occurrence of the separator character,
keeping empty segments (the semantics of JavaScript `split` and of a
statement-terminator scan). -/
def splitOnChar (sep : Char) : List Char → List Char → List (List Char)
  | [], acc => [acc.reverse]
  | c :: cs, acc =>
    if c == sep then acc.reverse :: splitOnChar sep cs []
    else splitOnChar sep cs (c :: acc)

/-- Cut a character list into whitespace/comma-separated tokens. -/
def tokenizeAux : List Char → List Char → List (List Char)
  | [], acc => if acc.isEmpty then [] else [acc.reverse]
  | c :: cs, acc =>
    if isSep c then
      if acc.isEmpty then tokenizeAux cs []
      else acc.reverse :: tokenizeAux cs []
    else tokenizeAux cs (c :: acc)

def tokenize (s : List Char) : List (List Char) :=
  tokenizeAux s []

/-- Lower-case a token, for the case-insensitive identifier comparisons the
specification mandates. -/
def low (t : List Char) : List Char :=
  t.map Char.toLower

/-- Drop leading and trailing whitespace (JavaScript `String.trim`). -/
def trim (s : List Char) : List Char :=
  ((s.dropWhile isWs).reverse.dropWhile isWs).reverse

def kwSelect : List Char := "select".data
def kwFrom : List Char := "from".data
def kwJoin : List Char := "join".data
def kwLimit : List Char := "limit".data
def starTok : List Char := "*".data

/-- Parse a token consisting solely of decimal digits. -/
def tokToNat (t : List Char) : Option Nat :=
  if !t.isEmpty && t.all Char.isDigit then
    some (t.foldl (fun a c => a * 10 + (c.toNat - 48)) 0)
  else none

/-! ## Data model (specification §3) -/

/-- Modelled from the spec: per-tenant SQL access policy (`DatabasePolicy`),
whose owning Tenant Policy Store is an external collaborator with no source
under `src/`.  The connection descriptor is irrelevant to validation and is
omitted. -/
structure DatabasePolicy where
  allowedTables : List (List Char)
  allowedColumns : List (List Char × List (List Char))
  maxRows : Nat
  timeoutSeconds : Nat
deriving DecidableEq

inductive RejectionKind
  | forbiddenStatement
  | tableNotWhitelisted
  | columnNotWhitelisted
  | parseError
deriving DecidableEq

/-- The parsed, possibly limit-rewritten single SELECT statement an approved
validation carries. -/
structure SelectStmt where
  columns : List (List Char)
  tables : List (List Char)
  limit : Option Nat
deriving DecidableEq

inductive ValidationResult
  | approved (sql : SelectStmt)
  | rejected (kind : RejectionKind)
deriving DecidableEq

/-! ## SQL Guardrail Validator (specification §4.3) -/

/-- Statements of a candidate: split at the terminator, tokenize each
segment, and keep the non-empty ones. -/
def statements (sql : String) : List (List (List Char)) :=
  ((splitOnChar ';' sql.data []).map tokenize).filter (fun ts => !ts.isEmpty)

/-- Selected columns: the tokens between the SELECT keyword and FROM. -/
def selCols (rest : List (List Char)) : List (List Char) :=
  rest.takeWhile (fun w => low w != kwFrom)

/-- The tokens after the first FROM keyword. -/
def fromClause (toks : List (List Char)) : List (List Char) :=
  match toks.dropWhile (fun w => low w != kwFrom) with
  | [] => []
  | _ :: after => after

/-- Tables joined in after the leading table of the FROM clause. -/
def joinTables : List (List Char) → List (List Char)
  | [] => []
  | [_] => []
  | w :: t :: rest =>
    if low w == kwJoin then t :: joinTables rest
    else joinTables (t :: rest)

/-- Referenced tables of a FROM clause: its leading table plus every
JOIN-introduced table. -/
def tablesOf : List (List Char) → List (List Char)
  | [] => []
  | t :: rest => t :: joinTables rest

/-- All tables referenced by a candidate, across all its statements. -/
def referencedTables (sql : String) : List (List Char) :=
  (statements sql).flatMap (fun toks => tablesOf (fromClause toks))

/-- First LIMIT clause value, when one is present with a numeric argument. -/
def findLimit : List (List Char) → Option Nat
  | [] => none
  | [_] => none
  | w :: n :: rest =>
    if low w == kwLimit then
      match tokToNat n with
      | some k => some k
      | none => findLimit (n :: rest)
    else findLimit (n :: rest)

/-- Cap an optional explicit limit at the policy's row cap: a missing or
too-large limit is rewritten to the cap. -/
def capLimit : Option Nat → Nat → Nat
  | none, m => m
  | some n, m => if n ≤ m then n else m

/-- Case-insensitive membership test failure: true when some referenced
table is absent from the policy's whitelist. -/
def badTables (p : DatabasePolicy) (tabs : List (List Char)) : Bool :=
  tabs.any (fun t => !(p.allowedTables.any (fun a => low a == low t)))

/-- Column whitelist of a table (case-insensitive lookup); empty when the
table has no entry. -/
def colsFor (p : DatabasePolicy) (t : List Char) : List (List Char) :=
  match p.allowedColumns.find? (fun e => low e.1 == low t) with
  | some e => e.2
  | none => []

/-- A column violation for one referenced table: its whitelist is non-empty
and some selected column is `*` or outside the whitelist. -/
def colViolation (p : DatabasePolicy) (t : List Char) (cols : List (List Char)) : Bool :=
  !(colsFor p t).isEmpty &&
    cols.any (fun c => c == starTok || !((colsFor p t).any (fun a => low a == low c)))

def anyColViolation (p : DatabasePolicy) (tabs cols : List (List Char)) : Bool :=
  tabs.any (fun t => colViolation p t cols)

/-- Modelled from the spec: the single-statement stage of
`validate` (guardrails module absent from `src/`), following §4.3 steps 2-6:
statement-kind check, table whitelist, column whitelist, limit capping. -/
def validateSingle (toks : List (List Char)) (p : DatabasePolicy) : ValidationResult :=
  match toks with
  | [] => .rejected .parseError
  | k :: rest =>
    if low k != kwSelect then .rejected .forbiddenStatement
    else if badTables p (tablesOf (fromClause rest)) then .rejected .tableNotWhitelisted
    else if anyColViolation p (tablesOf (fromClause rest)) (selCols rest) then
      .rejected .columnNotWhitelisted
    else
      .approved
        { columns := selCols rest
          tables := tablesOf (fromClause rest)
          limit := some (capLimit (findLimit rest) p.maxRows) }

/-- Modelled from the spec: `validate(candidate, policy)` of the SQL
Guardrail Validator (no guardrails source under `src/`).  Multiple
statements separated by a terminator are rejected outright regardless of
kind (§4.3 step 2). -/
def validate (sql : String) (p : DatabasePolicy) : ValidationResult :=
  match statements sql with
  | [] => .rejected .parseError
  | [toks] => validateSingle toks p
  | _ :: _ :: _ => .rejected .forbiddenStatement

/-- The scenario tenant policy: `allowed_tables = {"orders"}`, no column
whitelist, `max_rows = 500`. -/
def ordersPolicy : DatabasePolicy :=
  { allowedTables := ["orders".data]
    allowedColumns := []
    maxRows := 500
    timeoutSeconds := 30 }

/-- The column-whitelisted scenario tenant policy:
`allowed_columns = {"orders": {"id","customer"}}`. -/
def ordersColsPolicy : DatabasePolicy :=
  { allowedTables := ["orders".data]
    allowedColumns := [("orders".data, ["id".data, "customer".data])]
    maxRows := 500
    timeoutSeconds := 30 }

/-- A policy carrying a column whitelist for a table that is itself not
whitelisted; legal per the data model and used to separate the rejection
kinds. -/
def usersColsPolicy : DatabasePolicy :=
  { allowedTables := ["orders".data]
    allowedColumns := [("users".data, ["id".data])]
    maxRows := 500
    timeoutSeconds := 30 }

/-! ## Credential Vault (specification §4.1) -/

/-- Modelled from the spec: an encrypted credential at rest — ciphertext
plus the nonce used for the write (Vault sources absent from `src/`). -/
structure CredentialRecord where
  nonce : Nat
  body : List Nat
deriving DecidableEq

/-- Keystream byte for position `i` under a master key and nonce. -/
def maskByte (key nonce i : Nat) : Nat :=
  key ^^^ (nonce + i)

/-- XOR a byte sequence against the keystream starting at position `i`;
self-inverse, which is what the round-trip property exercises. -/
def encBytes (key nonce : Nat) : Nat → List Nat → List Nat
  | _, [] => []
  | i, b :: bs => (b ^^^ maskByte key nonce i) :: encBytes key nonce (i + 1) bs

/-- Modelled from the spec: symmetric encryption of a plaintext credential
under the process-wide key with a per-write nonce. -/
def encrypt (key nonce : Nat) (k : List Nat) : CredentialRecord :=
  { nonce := nonce, body := encBytes key nonce 0 k }

/-- Modelled from the spec: decryption of a stored record with the same
process-wide key and the record's own nonce. -/
def decrypt (key : Nat) (r : CredentialRecord) : List Nat :=
  encBytes key r.nonce 0 r.body

/-- Vault state: the process-wide master key, the source of fresh nonces
(each write consumes the next unused one), and the persisted records. -/
structure VaultState where
  masterKey : Nat
  nonceCtr : Nat
  records : List CredentialRecord

/-- Modelled from the spec: `store` encrypts the plaintext with a fresh
nonce, persists ciphertext+nonce, and advances the nonce source. -/
def store (st : VaultState) (k : List Nat) : CredentialRecord × VaultState :=
  let r := encrypt st.masterKey st.nonceCtr k
  (r, { masterKey := st.masterKey
        nonceCtr := st.nonceCtr + 1
        records := st.records ++ [r] })

/-! ## Query Router (specification §4.4) -/

inductive Strategy
  | vector
  | sql
  | hybrid
deriving DecidableEq

/-- One prior conversation turn as the Router's continuity input. -/
structure Turn where
  query : String
  strategy : Strategy
  answer : String

structure RouteDecision where
  strategy : Strategy
  rationale : String
deriving DecidableEq

/-- Lexical signals suggesting structured (SQL) retrieval: aggregation,
counting and filtering language. -/
def sqlKeywords : List (List Char) :=
  ["count".data, "many".data, "sum".data, "average".data, "total".data,
   "aggregate".data, "filter".data, "orders".data]

/-- Lexical signals suggesting open-ended semantic (vector) retrieval. -/
def vectorKeywords : List (List Char) :=
  ["what".data, "explain".data, "why".data, "describe".data, "policy".data]

/-- Number of query tokens that hit a keyword list. -/
def score (kws : List (List Char)) (q : String) : Nat :=
  ((tokenize q.data).map low).countP (fun w => kws.contains w)

def lastStrategy (history : List Turn) : Option Strategy :=
  (history.getLast?).map (fun t => t.strategy)

/-- Modelled from the spec: `route(tenant, query, session)` classification
(Router sources absent from `src/`).  Without a database policy only Vector
is viable; both signal classes present yields Hybrid; a signal-free
follow-up inherits the prior turn's strategy; below-threshold confidence
with a policy present defaults to Hybrid. -/
def route (policy : Option DatabasePolicy) (q : String) (history : List Turn) :
    RouteDecision :=
  match policy with
  | none => { strategy := .vector, rationale := "no database policy" }
  | some _ =>
    if 0 < score sqlKeywords q ∧ 0 < score vectorKeywords q then
      { strategy := .hybrid, rationale := "both signal classes present" }
    else if 0 < score sqlKeywords q then
      { strategy := .sql, rationale := "aggregation language" }
    else if 0 < score vectorKeywords q then
      { strategy := .vector, rationale := "open-ended language" }
    else
      match lastStrategy history with
      | some st => { strategy := st, rationale := "follow-up inherits" }
      | none => { strategy := .hybrid, rationale := "low confidence default" }

/-! ## Administrative configuration (specification §6) -/

/-- A tenant's accepted configuration; the SQL path is enabled exactly when
a database policy is present. -/
structure TenantConfig where
  dbPolicy : Option DatabasePolicy
deriving DecidableEq

/-- Structural validity of a database policy: non-empty allowed tables and
a positive row cap. -/
def structurallyValid (p : DatabasePolicy) : Bool :=
  match p.allowedTables with
  | [] => false
  | _ :: _ => decide (0 < p.maxRows)

/-- Modelled from the spec: `configure_database(tenant, policy)` validates
structurally before accepting (backend entry point absent from `src/`; its
frontend caller is `saveDatabaseConfig` in `app.js`). -/
def configure_database (_cur : TenantConfig) (p : DatabasePolicy) : Option TenantConfig :=
  if structurallyValid p then some { dbPolicy := some p } else none

/-! ## Frontend streaming display (`sendChatMessage`, app.js lines 526-540) -/

/-- Does the pattern start the list? -/
def startsWith (pat : List Char) : List Char → Bool
  | [] => pat.isEmpty
  | c :: cs =>
    match pat with
    | [] => true
    | p :: ps => p == c && startsWith ps cs

/-- Does the pattern occur anywhere in the list? -/
def hasSub (pat : List Char) : List Char → Bool
  | [] => pat.isEmpty
  | c :: rest => startsWith pat (c :: rest) || hasSub pat rest

/-- JavaScript `String.replace` with a string pattern: replace only the
first occurrence, leave the text unchanged when the pattern is absent. -/
def replaceFirst (pat rep : List Char) : List Char → List Char
  | [] => []
  | c :: rest =>
    if startsWith pat (c :: rest) then rep ++ (c :: rest).drop pat.length
    else c :: replaceFirst pat rep rest

/-- The literal direct-display bypass marker of `sendChatMessage`. -/
def marker : List Char := "[[DIRECT_DISPLAY]]".data

/-- The text `sendChatMessage` renders for the accumulated streamed
content: `fullContent.replace(marker, empty)`. -/
def renderStreamed (full : List Char) : List Char :=
  replaceFirst marker [] full

/-! ## Frontend chat sessions (`openChatModal`, app.js lines 454-476) -/

/-- Client chat state: the current session id (opaque, hence a type
parameter) and every id handed out so far. -/
structure ChatState (α : Type) where
  sessionId : Option α
  openedIds : List α

/-- `openChatModal`: every opening overwrites the session id with a freshly
generated value. -/
def openChatModal (freshId : α) (st : ChatState α) : ChatState α :=
  { sessionId := some freshId, openedIds := st.openedIds ++ [freshId] }

/-- The client state after `n` chat openings, drawing the `i`-th generated
id from `gen i`. -/
def openSeq (gen : Nat → α) : Nat → ChatState α
  | 0 => { sessionId := none, openedIds := [] }
  | n + 1 => openChatModal (gen n) (openSeq gen n)

/-! ## Frontend database form (`saveDatabaseConfig`, app.js lines 294-324) -/

/-- The raw values of the database-configuration form fields. -/
structure DbForm where
  dbType : String
  host : String
  port : String
  database : String
  username : String
  schemaName : String
  password : String
  tables : String

/-- The JSON payload `saveDatabaseConfig` submits. -/
structure DbConfigPayload where
  enabled : Bool
  dbType : String
  host : List Char
  port : Nat
  database : List Char
  username : List Char
  schemaName : String
  password : String
  allowedTables : List (List Char)
  allowedColumns : List (List Char × List (List Char))
  maxRows : Nat
  timeoutSeconds : Nat
deriving DecidableEq

/-- `parseInt(value) || 5432`: leading decimal digits, with a missing or
zero result replaced by the default port. -/
def parsePort (s : String) : Nat :=
  match tokToNat ((trim s.data).takeWhile Char.isDigit) with
  | some v => if v == 0 then 5432 else v
  | none => 5432

/-- The tables field split on commas, each entry trimmed, empty entries
removed: `value.split(',').map(t => t.trim()).filter(t => t)`. -/
def splitTrimFilter (s : String) : List (List Char) :=
  ((splitOnChar ',' s.data []).map trim).filter (fun t => !t.isEmpty)

/-- `saveDatabaseConfig`: throws (here `none`) when the trimmed host or
database name is empty, otherwise submits the config object built from the
form, with hard-coded `allowed_columns`, `max_rows` and `timeout_seconds`. -/
def buildConfig (f : DbForm) : Option DbConfigPayload :=
  if trim f.host.data = [] ∨ trim f.database.data = [] then none
  else
    some
      { enabled := true
        dbType := f.dbType
        host := trim f.host.data
        port := parsePort f.port
        database := trim f.database.data
        username := trim f.username.data
        schemaName := f.schemaName
        password := f.password
        allowedTables := splitTrimFilter f.tables
        allowedColumns := []
        maxRows := 500
        timeoutSeconds := 30 }

/-! ## Helper lemmas -/

/-- Capping an optional limit at the row cap never exceeds the cap. -/
theorem capLimit_le (o : Option Nat) (m : Nat) : capLimit o m ≤ m := by
  cases o with
  | none => simp [capLimit]
  | some n => simp only [capLimit]; split <;> omega

/-- XOR-ing against the same keystream twice restores the plaintext. -/
theorem encBytes_involutive (key nonce : Nat) :
    ∀ (i : Nat) (bs : List Nat), encBytes key nonce i (encBytes key nonce i bs) = bs := by
  intro i bs
  induction bs generalizing i with
  | nil => simp [encBytes]
  | cons b bs ih => simp [encBytes, Nat.xor_cancel_right, ih]

/-- Correctness of the prefix test. -/
theorem startsWith_iff (pat s : List Char) :
    startsWith pat s = true ↔ ∃ t, s = pat ++ t := by
  induction pat generalizing s with
  | nil => cases s <;> simp [startsWith]
  | cons p ps ih =>
    cases s with
    | nil => simp [startsWith]
    | cons c cs =>
      simp only [startsWith, Bool.and_eq_true, beq_iff_eq, ih, List.cons_append,
        List.cons.injEq]
      constructor
      · rintro ⟨rfl, t, rfl⟩; exact ⟨t, rfl, rfl⟩
      · rintro ⟨t, rfl, rfl⟩; exact ⟨rfl, t, rfl⟩

/-- A prefix of a list is a prefix of any extension of it. -/
theorem startsWith_append_of_startsWith (pat l t : List Char)
    (h : startsWith pat l = true) : startsWith pat (l ++ t) = true := by
  rw [startsWith_iff] at h ⊢
  rcases h with ⟨u, rfl⟩
  exact ⟨u ++ t, by simp⟩

/-! ## Claim theorems -/

/-- Claim C1: every SQL candidate containing a second statement after a
statement terminator is rejected with kind `ForbiddenStatement`, regardless
of the kind or content of what follows the terminator. -/
theorem validate_second_statement_forbidden (sql : String) (p : DatabasePolicy)
    (h : 2 ≤ (statements sql).length) :
    validate sql p = .rejected .forbiddenStatement := by
  rcases hst : statements sql with _ | ⟨t, _ | ⟨u, rest⟩⟩
  · rw [hst] at h; simp at h
  · rw [hst] at h; simp at h
  · unfold validate; rw [hst]

/-- Claim C1 witness: the scenario candidate with a trailing `DROP` is a
two-statement candidate and is rejected with `ForbiddenStatement` under the
scenario policy. -/
theorem validate_second_statement_forbidden_witness :
    2 ≤ (statements ("SELECT * FROM orders; DROP TABLE orders;")).length ∧
      validate ("SELECT * FROM orders; DROP TABLE orders;") ordersPolicy =
        ValidationResult.rejected .forbiddenStatement :=
  ⟨by decide, validate_second_statement_forbidden _ _ (by decide)⟩

/-- Claim C2 counterexample: a two-statement candidate referencing the
non-whitelisted table `evil` is rejected with `ForbiddenStatement`, not
`TableNotWhitelisted`, because the multiple-statement check runs first. -/
theorem validate_table_check_not_unconditional :
    (referencedTables ("SELECT * FROM evil; SELECT id FROM evil")).any
        (fun t => !(ordersPolicy.allowedTables.any (fun a => low a == low t))) = true ∧
      validate ("SELECT * FROM evil; SELECT id FROM evil") ordersPolicy =
        ValidationResult.rejected .forbiddenStatement ∧
      validate ("SELECT * FROM evil; SELECT id FROM evil") ordersPolicy ≠
        ValidationResult.rejected .tableNotWhitelisted := by
  refine ⟨by decide, by decide, by decide⟩

/-- Claim C2 (amended): every single-statement SELECT candidate referencing
a table not in `policy.allowed_tables` (case-insensitively) is rejected
with kind `TableNotWhitelisted`. -/
theorem validate_table_not_whitelisted (sql : String) (p : DatabasePolicy)
    (k : List Char) (rest : List (List Char))
    (hs : statements sql = [k :: rest])
    (hsel : low k = kwSelect)
    (hbad : badTables p (tablesOf (fromClause rest)) = true) :
    validate sql p = .rejected .tableNotWhitelisted := by
  unfold validate
  rw [hs]
  show validateSingle (k :: rest) p = _
  simp only [validateSingle]
  rw [hsel]
  simp [hbad]

/-- Claim C2 witness: `SELECT id FROM Users` (mixed case) under the orders
policy hits the amended theorem's hypotheses and is rejected with
`TableNotWhitelisted`. -/
theorem validate_table_not_whitelisted_witness :
    statements ("SELECT id FROM Users") =
        ["SELECT".data :: ["id".data, "FROM".data, "Users".data]] ∧
      low ("SELECT".data) = kwSelect ∧
      badTables ordersPolicy
          (tablesOf (fromClause ["id".data, "FROM".data, "Users".data])) = true ∧
      validate ("SELECT id FROM Users") ordersPolicy =
        ValidationResult.rejected .tableNotWhitelisted :=
  ⟨by decide, by decide, by decide,
    validate_table_not_whitelisted ("SELECT id FROM Users") ordersPolicy ("SELECT".data)
      ["id".data, "FROM".data, "Users".data] (by decide) (by decide) (by decide)⟩

/-- Claim C3 counterexample: `SELECT name FROM users` under a policy whose
column whitelist for `users` is non-empty, while `users` itself is not
whitelisted, is rejected with `TableNotWhitelisted`, not
`ColumnNotWhitelisted`, because the table check runs first. -/
theorem validate_column_check_not_unconditional :
    referencedTables ("SELECT name FROM users") = ["users".data] ∧
      colsFor usersColsPolicy ("users".data) = ["id".data] ∧
      validate ("SELECT name FROM users") usersColsPolicy =
        ValidationResult.rejected .tableNotWhitelisted ∧
      validate ("SELECT name FROM users") usersColsPolicy ≠
        ValidationResult.rejected .columnNotWhitelisted := by
  refine ⟨by decide, by decide, by decide, by decide⟩

/-- Claim C3 (amended): every single-statement SELECT candidate whose
referenced tables are all whitelisted is rejected with kind
`ColumnNotWhitelisted` when some referenced table has a non-empty column
whitelist and some selected column (including `*`) falls outside it. -/
theorem validate_column_not_whitelisted (sql : String) (p : DatabasePolicy)
    (k : List Char) (rest : List (List Char))
    (hs : statements sql = [k :: rest])
    (hsel : low k = kwSelect)
    (hok : badTables p (tablesOf (fromClause rest)) = false)
    (hcol : anyColViolation p (tablesOf (fromClause rest)) (selCols rest) = true) :
    validate sql p = .rejected .columnNotWhitelisted := by
  unfold validate
  rw [hs]
  show validateSingle (k :: rest) p = _
  simp only [validateSingle]
  rw [hsel]
  simp [hok, hcol]

/-- Claim C3 witness: the scenario candidate
`SELECT id, customer, total FROM orders` under the column-whitelisted
scenario policy is rejected with `ColumnNotWhitelisted`. -/
theorem validate_column_not_whitelisted_witness :
    statements ("SELECT id, customer, total FROM orders") =
        ["SELECT".data ::
          ["id".data, "customer".data, "total".data, "FROM".data, "orders".data]] ∧
      low ("SELECT".data) = kwSelect ∧
      badTables ordersColsPolicy
          (tablesOf (fromClause
            ["id".data, "customer".data, "total".data, "FROM".data, "orders".data])) =
        false ∧
      anyColViolation ordersColsPolicy
          (tablesOf (fromClause
            ["id".data, "customer".data, "total".data, "FROM".data, "orders".data]))
          (selCols
            ["id".data, "customer".data, "total".data, "FROM".data, "orders".data]) =
        true ∧
      validate ("SELECT id, customer, total FROM orders") ordersColsPolicy =
        ValidationResult.rejected .columnNotWhitelisted :=
  ⟨by decide, by decide, by decide, by decide,
    validate_column_not_whitelisted ("SELECT id, customer, total FROM orders")
      ordersColsPolicy ("SELECT".data)
      ["id".data, "customer".data, "total".data, "FROM".data, "orders".data]
      (by decide) (by decide) (by decide) (by decide)⟩

/-- Claim C4: every approved result carries the candidate's own columns and
tables unchanged — the limit rewrite is the only mutation — and its limit
field is the candidate's explicit limit capped at `policy.max_rows`, hence
at most `policy.max_rows`. -/
theorem validate_approved_cap (sql : String) (p : DatabasePolicy) (out : SelectStmt)
    (h : validate sql p = .approved out) :
    ∃ k rest, statements sql = [k :: rest] ∧
      out.columns = selCols rest ∧
      out.tables = tablesOf (fromClause rest) ∧
      out.limit = some (capLimit (findLimit rest) p.maxRows) ∧
      capLimit (findLimit rest) p.maxRows ≤ p.maxRows := by
  unfold validate at h
  rcases hst : statements sql with _ | ⟨toks, _ | _⟩ <;> rw [hst] at h
  · simp at h
  · cases toks with
    | nil => simp [validateSingle] at h
    | cons k rest =>
      simp only [validateSingle] at h
      by_cases h1 : (low k != kwSelect) = true
      · simp [h1] at h
      · simp only [h1, if_false, Bool.not_eq_true] at h
        rw [if_neg (by simp [h1])] at h
        by_cases h2 : badTables p (tablesOf (fromClause rest)) = true
        · simp [h2] at h
        · rw [if_neg h2] at h
          by_cases h3 : anyColViolation p (tablesOf (fromClause rest)) (selCols rest) = true
          · simp [h3] at h
          · rw [if_neg h3] at h
            refine ⟨k, rest, rfl, ?_, ?_, ?_, capLimit_le _ _⟩
            all_goals
              cases h
              rfl
  · simp at h

/-- Claim C4 witness: the scenario candidate
`SELECT id, customer FROM orders LIMIT 10000` with `max_rows = 500` is
approved with its limit rewritten to 500. -/
theorem validate_approved_cap_witness :
    validate ("SELECT id, customer FROM orders LIMIT 10000") ordersPolicy =
        ValidationResult.approved
          { columns := ["id".data, "customer".data]
            tables := ["orders".data]
            limit := some 500 } ∧
      ∃ k rest,
        statements ("SELECT id, customer FROM orders LIMIT 10000") = [k :: rest] ∧
        (SelectStmt.mk ["id".data, "customer".data] ["orders".data] (some 500)).columns =
          selCols rest ∧
        (SelectStmt.mk ["id".data, "customer".data] ["orders".data] (some 500)).tables =
          tablesOf (fromClause rest) ∧
        (SelectStmt.mk ["id".data, "customer".data] ["orders".data] (some 500)).limit =
          some (capLimit (findLimit rest) ordersPolicy.maxRows) ∧
        capLimit (findLimit rest) ordersPolicy.maxRows ≤ ordersPolicy.maxRows :=
  ⟨by decide,
    validate_approved_cap ("SELECT id, customer FROM orders LIMIT 10000") ordersPolicy
      (SelectStmt.mk ["id".data, "customer".data] ["orders".data] (some 500)) (by decide)⟩

/-- Claim C5: decrypting the Vault's encryption of a credential returns the
credential, and two consecutive stores of the same credential never produce
identical ciphertext records, because each write consumes a fresh nonce. -/
theorem vault_roundtrip_and_fresh_nonce (st : VaultState) (k : List Nat) :
    decrypt st.masterKey (store st k).1 = k ∧
      (store st k).1 ≠ (store (store st k).2 k).1 := by
  constructor
  · show decrypt st.masterKey (encrypt st.masterKey st.nonceCtr k) = k
    simp [decrypt, encrypt, encBytes_involutive]
  · intro h
    have hn : (store st k).1.nonce = (store (store st k).2 k).1.nonce := by rw [h]
    simp [store, encrypt] at hn

/-- Claim C6: two calls to `route` with identical policy, query text and
session history yield the same strategy. -/
theorem route_strategy_deterministic (p p' : Option DatabasePolicy) (q q' : String)
    (hist hist' : List Turn) (hp : p = p') (hq : q = q') (hh : hist = hist') :
    (route p q hist).strategy = (route p' q' hist').strategy := by
  subst hp; subst hq; subst hh; rfl

/-- Claim C6 witness: repeated routing of an aggregation query for the
scenario tenant returns the same strategy. -/
theorem route_strategy_deterministic_witness :
    (route (some ordersPolicy) ("How many orders did customer X place?") []).strategy =
      (route (some ordersPolicy) ("How many orders did customer X place?") []).strategy :=
  route_strategy_deterministic (some ordersPolicy) (some ordersPolicy)
    ("How many orders did customer X place?") ("How many orders did customer X place?")
    [] [] rfl rfl rfl

/-- Claim C7: `configure_database` accepts a policy — enabling the SQL
path — exactly when the policy is structurally valid: non-empty allowed
tables and a positive row cap. -/
theorem configure_database_structural (cur : TenantConfig) (p : DatabasePolicy) :
    (∃ cfg, configure_database cur p = some cfg ∧ cfg.dbPolicy = some p) ↔
      (p.allowedTables ≠ [] ∧ 0 < p.maxRows) := by
  constructor
  · rintro ⟨cfg, hc, hdb⟩
    by_cases hv : structurallyValid p = true
    · unfold structurallyValid at hv
      rcases hAT : p.allowedTables with _ | ⟨a, ts⟩ <;> rw [hAT] at hv
      · simp at hv
      · simp at hv
        exact ⟨by simp [hAT], hv⟩
    · simp [configure_database, hv] at hc
  · rintro ⟨h1, h2⟩
    have hv : structurallyValid p = true := by
      unfold structurallyValid
      rcases hAT : p.allowedTables with _ | _
      · exact absurd hAT h1
      · simpa using h2
    exact ⟨{ dbPolicy := some p }, by simp [configure_database, hv], rfl⟩

/-- Claim C8 counterexample: when the accumulated streamed text contains
the bypass marker twice, the rendered text still contains the marker — the
client replaces only the first occurrence. -/
theorem renderStreamed_can_retain_marker :
    hasSub marker (("[[DIRECT_DISPLAY]][[DIRECT_DISPLAY]]").data) = true ∧
      hasSub marker (renderStreamed (("[[DIRECT_DISPLAY]][[DIRECT_DISPLAY]]").data)) =
        true := by
  refine ⟨by decide, by decide⟩

/-- Claim C8 (amended): the client strips exactly the first occurrence of
the literal bypass marker from the accumulated streamed text before
rendering: whenever the marker occurs, the rendered text is the accumulated
text with its earliest marker occurrence removed. -/
theorem renderStreamed_strips_first_occurrence (full : List Char)
    (h : hasSub marker full = true) :
    ∃ pre post, full = pre ++ marker ++ post ∧ hasSub marker pre = false ∧
      renderStreamed full = pre ++ post := by
  unfold renderStreamed
  induction full with
  | nil =>
    simp [hasSub] at h
    exact absurd h (by decide)
  | cons c rest ih =>
    by_cases hsw : startsWith marker (c :: rest) = true
    · obtain ⟨t, ht⟩ := (startsWith_iff _ _).1 hsw
      refine ⟨[], t, by simpa using ht, by decide, ?_⟩
      simp only [replaceFirst, if_pos hsw, List.nil_append]
      rw [ht, List.drop_left]
    · have h' : hasSub marker rest = true := by
        simpa [hasSub, hsw] using h
      obtain ⟨pre, post, hfull, hpre, hrepl⟩ := ih h'
      refine ⟨c :: pre, post, by simp [hfull], ?_, ?_⟩
      · have hswp : startsWith marker (c :: pre) = false := by
          by_contra hc
          rw [Bool.not_eq_false] at hc
          have hext : startsWith marker ((c :: pre) ++ (marker ++ post)) = true :=
            startsWith_append_of_startsWith _ _ _ hc
          rw [show (c :: pre) ++ (marker ++ post) = c :: (pre ++ marker ++ post) by simp,
            ← hfull] at hext
          exact hsw hext
        simp [hasSub, hswp, hpre]
      · simp [replaceFirst, hsw, hrepl]

/-- Claim C8 witness: a streamed text with one marker occurrence renders
with the occurrence removed. -/
theorem renderStreamed_strips_first_occurrence_witness :
    hasSub marker (("abc[[DIRECT_DISPLAY]]xyz").data) = true ∧
      ∃ pre post, ("abc[[DIRECT_DISPLAY]]xyz").data = pre ++ marker ++ post ∧
        hasSub marker pre = false ∧
        renderStreamed (("abc[[DIRECT_DISPLAY]]xyz").data) = pre ++ post :=
  ⟨by decide, renderStreamed_strips_first_occurrence _ (by decide)⟩

/-- Claim C9: with a generator whose draws never repeat, every chat opening
receives a session id distinct from the id of any other opening — the
client never reuses a session id across openings. -/
theorem openSeq_fresh_session_ids {α : Type} (gen : Nat → α)
    (hinj : Function.Injective gen) (i j : Nat) (hne : i ≠ j) :
    (openSeq gen (i + 1)).sessionId ≠ (openSeq gen (j + 1)).sessionId := by
  show some (gen i) ≠ some (gen j)
  intro h
  exact hne (hinj (Option.some.inj h))

/-- Claim C9 witness: with the identity generator the first and second
openings receive distinct session ids. -/
theorem openSeq_fresh_session_ids_witness :
    Function.Injective (fun n : Nat => n) ∧ (0 : Nat) ≠ 1 ∧
      (openSeq (fun n : Nat => n) (0 + 1)).sessionId ≠
        (openSeq (fun n : Nat => n) (1 + 1)).sessionId :=
  ⟨fun a b hab => hab, by decide,
    openSeq_fresh_session_ids (fun n : Nat => n) (fun a b hab => hab) 0 1 (by decide)⟩

/-- Claim C10: every submitted database configuration has an empty column
whitelist, `max_rows = 500` and `timeout_seconds = 30` regardless of form
input, and its allowed tables are exactly the comma-split, trimmed,
non-empty entries of the tables field. -/
theorem buildConfig_fixed_policy_fields (f : DbForm) (cfg : DbConfigPayload)
    (h : buildConfig f = some cfg) :
    cfg.allowedColumns = [] ∧ cfg.maxRows = 500 ∧ cfg.timeoutSeconds = 30 ∧
      cfg.allowedTables = splitTrimFilter f.tables := by
  unfold buildConfig at h
  by_cases hc : trim f.host.data = [] ∨ trim f.database.data = []
  · simp [hc] at h
  · rw [if_neg hc] at h
    cases h
    exact ⟨rfl, rfl, rfl, rfl⟩

/-- Claim C10 witness: a concrete form submission produces the hard-coded
policy fields and the cleaned table list. -/
theorem buildConfig_fixed_policy_fields_witness :
    buildConfig
        { dbType := "postgres", host := " db.local ", port := "5432"
          database := "sales", username := "u", schemaName := "public"
          password := "pw", tables := " orders, users ,, " } =
      some
        { enabled := true, dbType := "postgres", host := "db.local".data
          port := 5432, database := "sales".data, username := "u".data
          schemaName := "public", password := "pw"
          allowedTables := ["orders".data, "users".data], allowedColumns := []
          maxRows := 500, timeoutSeconds := 30 } ∧
      ([] : List (List Char × List (List Char))) = [] ∧ (500 : Nat) = 500 ∧
        (30 : Nat) = 30 ∧
        ["orders".data, "users".data] = splitTrimFilter (" orders, users ,, ") := by
  constructor
  · decide
  · have hconc := buildConfig_fixed_policy_fields
      { dbType := "postgres", host := " db.local ", port := "5432"
        database := "sales", username := "u", schemaName := "public"
        password := "pw", tables := " orders, users ,, " }
      { enabled := true, dbType := "postgres", host := "db.local".data
        port := 5432, database := "sales".data, username := "u".data
        schemaName := "public", password := "pw"
        allowedTables := ["orders".data, "users".data], allowedColumns := []
        maxRows := 500, timeoutSeconds := 30 } (by decide)
    exact hconc

end Noesis
